import Mathlib

/-!
Verification of the sprite-chopping programs of the pokesprite repository
(cmd/chop/main.go and the sprite-position table generator).

The Go code is shallowly embedded: Go `int` values become `Int` (the values
involved are far below 64-bit overflow), Go's truncating `/` and `%` become
`Int.tdiv` and `Int.tmod`, nullable `*string` fields become `Option String`,
and the file-writing loops become pure functions returning the list of
emitted outputs (and diagnostic records for the stderr lines).
-/

namespace Pokesprite

/-- Embeds the Go struct `Pokemon` of cmd/chop/main.go: one entry of the
JSON sheet description's `pokemon` list. -/
structure Pokemon where
  id : Int
  form : Option String
  skip : Bool
  skipCount : Int
deriving Repr, DecidableEq

/-- Embeds the Go struct `Data` of cmd/chop/main.go: the JSON sheet
description (minus the source-image path, which only locates the image). -/
structure Data where
  columns : Int
  rows : Int
  outline : Int
  padding : Int
  suffix : Option String
  pokemon : List Pokemon
deriving Repr, DecidableEq

/-- Embeds Go's `fmt.Sprintf ("%03d" format)` applied to an `Int`: decimal
digits, left-padded with zeros to a minimum total width of 3 (the sign
counting towards the width, as in Go). -/
def pad3 (n : Int) : String :=
  if n < 0 then
    let ds := toString n.natAbs
    "-" ++ String.mk (List.replicate (2 - ds.length) '0') ++ ds
  else
    let ds := toString n.natAbs
    String.mk (List.replicate (3 - ds.length) '0') ++ ds

/-- Embeds the output-filename construction of `chopFromJSON`
(main.go lines 222-229): `"./images/%03d"` of the id, then `-suffix` if the
sheet-level suffix is non-nil, then `-form` if the entry's form is non-nil,
then `".png"`. -/
def gridOutName (suffix : Option String) (p : Pokemon) : String :=
  let outName := "./images/" ++ pad3 p.id
  let outName := match suffix with
    | some s => outName ++ "-" ++ s
    | none => outName
  let outName := match p.form with
    | some f => outName ++ "-" ++ f
    | none => outName
  outName ++ ".png"

/-- One sprite emitted by the grid-mode loop: destination name, source
rectangle top-left corner, and the emitted image's width and height. -/
structure GridOutput where
  name : String
  srcX : Int
  srcY : Int
  w : Int
  h : Int
deriving Repr, DecidableEq

/-- Embeds main.go line 199: `height := (img.Bounds().Size().Y - ((data.Rows + 1) * data.Outline)) / data.Rows` (Go `/` truncates, hence `tdiv`). -/
def cellHeight (d : Data) (imgH : Int) : Int :=
  (imgH - (d.rows + 1) * d.outline).tdiv d.rows

/-- Embeds main.go line 200: `width := (img.Bounds().Size().X - ((data.Columns + 1) * data.Outline)) / data.Columns`. -/
def cellWidth (d : Data) (imgW : Int) : Int :=
  (imgW - (d.columns + 1) * d.outline).tdiv d.columns

/-- Embeds the per-entry loop of `chopFromJSON` (main.go lines 202-244).
The cursor `spriteIndex` is threaded explicitly; the function returns the
emitted outputs in order together with the final cursor value. A skipped
entry advances the cursor by its `skip_count` (a zero `skip_count` is
replaced by 1, as in lines 205-207) and emits nothing; a non-skipped entry
emits one output built from `row = spriteIndex / columns`,
`column = spriteIndex % columns` (Go truncating division and remainder)
and advances the cursor by 1. -/
def chopLoop (d : Data) (imgW imgH : Int) : List Pokemon → Int → List GridOutput × Int
  | [], spriteIndex => ([], spriteIndex)
  | p :: ps, spriteIndex =>
    if p.skip then
      chopLoop d imgW imgH ps
        (spriteIndex + (if p.skipCount = 0 then 1 else p.skipCount))
    else
      let height := cellHeight d imgH
      let width := cellWidth d imgW
      let row := spriteIndex.tdiv d.columns
      let column := spriteIndex.tmod d.columns
      let rest := chopLoop d imgW imgH ps (spriteIndex + 1)
      (⟨gridOutName d.suffix p,
        column * height + (column + 1) * d.outline + d.padding,
        row * width + (row + 1) * d.outline + d.padding,
        width - 2 * d.padding,
        height - 2 * d.padding⟩ :: rest.1, rest.2)

/-- Embeds `chopFromJSON` (main.go lines 176-245): process the whole
`pokemon` list with the cursor starting at 0, returning the emitted
sprites in order. -/
def chopFromJSON (d : Data) (imgW imgH : Int) : List GridOutput :=
  (chopLoop d imgW imgH d.pokemon 0).1

/-- The cursor advance contributed by one entry: 1 for an emitted entry,
`skip_count` (with zero normalized to 1) for a skipped one. -/
def advanceOf (p : Pokemon) : Int :=
  if p.skip then (if p.skipCount = 0 then 1 else p.skipCount) else 1

/-- A skip-only entry with the given `skip_count`, used for concrete
cursor-advancement examples. -/
def skipEntry (c : Int) : Pokemon := ⟨0, none, true, c⟩

lemma chopLoop_cursor (d : Data) (imgW imgH : Int) :
    ∀ (ps : List Pokemon) (i : Int),
      (chopLoop d imgW imgH ps i).2 = i + (ps.map advanceOf).sum := by
  intro ps
  induction ps with
  | nil => intro i; simp [chopLoop]
  | cons p ps ih =>
    intro i
    by_cases hp : p.skip
    · simp [chopLoop, hp, ih, advanceOf, add_assoc]
    · simp [chopLoop, hp, ih, advanceOf, add_assoc]

lemma chopLoop_length (d : Data) (imgW imgH : Int) :
    ∀ (ps : List Pokemon) (i : Int),
      (chopLoop d imgW imgH ps i).1.length
        = (ps.filter (fun p => !p.skip)).length := by
  intro ps
  induction ps with
  | nil => intro i; simp [chopLoop]
  | cons p ps ih =>
    intro i
    by_cases hp : p.skip
    · simp [chopLoop, hp, ih]
    · simp [chopLoop, hp, ih]

/-- C1: in grid (JSON) mode, a non-skipped entry processed at cursor index
`i` (row = i / columns, col = i mod columns, truncating) is emitted with
source top-left `x = col*cellHeight + (col+1)*outline + padding`,
`y = row*cellWidth + (row+1)*outline + padding`, where
`cellHeight = (imageHeight - (rows+1)*outline) / rows` and
`cellWidth = (imageWidth - (columns+1)*outline) / columns` with truncating
integer division, and emitted size
`(cellWidth - 2*padding, cellHeight - 2*padding)`; the asymmetric scaling
(column by cell-height, row by cell-width) is exact, and processing
continues at cursor `i + 1`. -/
theorem claim_C1 (d : Data) (imgW imgH i : Int) (p : Pokemon)
    (ps : List Pokemon) (hp : p.skip = false) :
    (chopLoop d imgW imgH (p :: ps) i).1 =
      ⟨gridOutName d.suffix p,
        (i.tmod d.columns) * ((imgH - (d.rows + 1) * d.outline).tdiv d.rows)
          + (i.tmod d.columns + 1) * d.outline + d.padding,
        (i.tdiv d.columns) * ((imgW - (d.columns + 1) * d.outline).tdiv d.columns)
          + (i.tdiv d.columns + 1) * d.outline + d.padding,
        (imgW - (d.columns + 1) * d.outline).tdiv d.columns - 2 * d.padding,
        (imgH - (d.rows + 1) * d.outline).tdiv d.rows - 2 * d.padding⟩
        :: (chopLoop d imgW imgH ps (i + 1)).1 := by
  simp [chopLoop, hp, cellHeight, cellWidth]

/-- Witness for C1: a concrete non-skipped entry at cursor index 6 of a
4-column, 5-row sheet with outline 1 and padding 0 on an 85x66 image. -/
theorem claim_C1_witness :
    (Pokemon.mk 1 none false 0).skip = false ∧
    (chopLoop ⟨4, 5, 1, 0, none, []⟩ 85 66 [⟨1, none, false, 0⟩] 6).1 =
      ⟨gridOutName (none : Option String) ⟨1, none, false, 0⟩,
        ((6 : Int).tmod 4) * (((66 : Int) - (5 + 1) * 1).tdiv 5)
          + ((6 : Int).tmod 4 + 1) * 1 + 0,
        ((6 : Int).tdiv 4) * (((85 : Int) - (4 + 1) * 1).tdiv 4)
          + ((6 : Int).tdiv 4 + 1) * 1 + 0,
        ((85 : Int) - (4 + 1) * 1).tdiv 4 - 2 * 0,
        ((66 : Int) - (5 + 1) * 1).tdiv 5 - 2 * 0⟩
        :: (chopLoop ⟨4, 5, 1, 0, none, []⟩ 85 66 [] (6 + 1)).1 :=
  ⟨rfl, claim_C1 ⟨4, 5, 1, 0, none, []⟩ 85 66 6 ⟨1, none, false, 0⟩ [] rfl⟩

/-- C2: in grid (JSON) mode the number of emitted sprites equals the number
of entries of the pokemon list with `skip = false`, for every image size
(the rectangles are never checked against the image bounds). -/
theorem claim_C2 (d : Data) (imgW imgH : Int) :
    (chopFromJSON d imgW imgH).length
      = (d.pokemon.filter (fun p => !p.skip)).length :=
  chopLoop_length d imgW imgH d.pokemon 0

/-- C3: the grid-slot cursor starts at 0 and advances by 1 per emitted
entry and by `skip_count` per skipped entry, with a zero `skip_count`
normalized to 1; the final cursor is the start plus the sum of the
per-entry advances, and skipped entries with counts [2,0,3] advance the
cursor by exactly 6. -/
theorem claim_C3 :
    (∀ (d : Data) (imgW imgH : Int) (ps : List Pokemon) (i : Int),
        (chopLoop d imgW imgH ps i).2 = i + (ps.map advanceOf).sum) ∧
    (∀ p : Pokemon, advanceOf p
        = if p.skip then (if p.skipCount = 0 then 1 else p.skipCount) else 1) ∧
    (∀ (d : Data) (imgW imgH : Int) (i : Int),
        (chopLoop d imgW imgH [skipEntry 2, skipEntry 0, skipEntry 3] i).2
          = i + 6) ∧
    (∀ (d : Data) (imgW imgH : Int),
        chopFromJSON d imgW imgH = (chopLoop d imgW imgH d.pokemon 0).1) := by
  refine ⟨chopLoop_cursor, fun p => rfl, ?_, fun d imgW imgH => rfl⟩
  intro d imgW imgH i
  rw [chopLoop_cursor]
  simp [skipEntry, advanceOf]

/-- Character-list core of Go's `strings.HasPrefix`: is the first list a
prefix of the second. -/
def hasPrefixList : List Char → List Char → Bool
  | [], _ => true
  | _ :: _, [] => false
  | p :: ps, c :: cs => p == c && hasPrefixList ps cs

/-- Embeds Go `strings.HasPrefix s pre` over the strings' characters
(the strings involved are ASCII, so byte-wise and character-wise
prefix tests agree). -/
def hasPrefixGo (s pre : String) : Bool := hasPrefixList pre.data s.data

/-- Embeds Go `strings.TrimPrefix s pre`: the string without the leading
`pre` when it starts with it, otherwise unchanged. -/
def trimPrefixGo (s pre : String) : String :=
  if hasPrefixGo s pre then String.mk (s.data.drop pre.data.length) else s

/-- Character-list core of Go's `strings.Split` for a one-character
separator: the groups of characters between occurrences of `sep`. -/
def splitCharList (sep : Char) : List Char → List (List Char)
  | [] => [[]]
  | c :: cs =>
    let r := splitCharList sep cs
    if c = sep then [] :: r
    else ((c :: r.headD []) :: r.tail)

/-- Embeds Go `strings.Split s sep` for the one-character separator used
by the chop program (`"."`). -/
def splitGo (s : String) (sep : Char) : List String :=
  (splitCharList sep s.data).map String.mk

/-- The resolution state of `scssSelectorToFilename` (main.go lines
139-141): the mutable `id`, `form`, `gameFamily` and `shiny` variables. -/
structure SelState where
  id : String
  form : String
  gameFamily : String
  shiny : Bool
deriving Repr, DecidableEq

/-- Embeds one iteration of the segment loop of `scssSelectorToFilename`
(main.go lines 142-156): a `color-shiny` segment sets the shiny flag, a
`form-`/`game-family-` prefixed segment sets that modifier (prefix
stripped), a `pkicon-` prefixed segment is ignored, and any other segment
becomes the id (so a later such segment overwrites an earlier one). -/
def segStep (st : SelState) (s : String) : SelState :=
  if s = "color-shiny" then { st with shiny := true }
  else if hasPrefixGo s "form-" then { st with form := trimPrefixGo s "form-" }
  else if hasPrefixGo s "game-family-" then
    { st with gameFamily := trimPrefixGo s "game-family-" }
  else if hasPrefixGo s "pkicon-" then st
  else { st with id := s }

/-- The initial state of the segment loop: all fields empty/false. -/
def initSelState : SelState := ⟨"", "", "", false⟩

/-- Embeds main.go lines 138-156: split the selector's middle part on `.`
and run the segment loop over all segments. -/
def resolveSelector (parts : String) : SelState :=
  (splitGo parts '.').foldl segStep initSelState

/-- Embeds main.go lines 157-173: the name built from the resolved state.
An empty id yields the empty string (caller skips the rule); the literal
id `ball-love` yields the fixed name `love-ball.png`; otherwise the name
is the id followed by `-shiny`, `-gameFamily`, `-form` (each when
present) and `.png`. -/
def nameFromState (st : SelState) : String :=
  if st.id = "" then ""
  else if st.id = "ball-love" then "love-ball.png"
  else
    let name := st.id
    let name := if st.shiny then name ++ "-shiny" else name
    let name := if st.gameFamily ≠ "" then name ++ "-" ++ st.gameFamily else name
    let name := if st.form ≠ "" then name ++ "-" ++ st.form else name
    name ++ ".png"

/-- Embeds `scssSelectorToFilename` (main.go lines 137-174): resolve the
dot-separated selector segments, then build the output filename. -/
def scssSelectorToFilename (parts : String) : String :=
  nameFromState (resolveSelector parts)

/-- A segment the loop recognizes as a modifier (or ignores): exactly
`color-shiny`, or one with a `form-`, `game-family-` or `pkicon-`
keyword prefix. Any other segment falls to the default branch and
becomes the base token. -/
def isModifierSeg (s : String) : Bool :=
  s == "color-shiny" || hasPrefixGo s "form-"
    || hasPrefixGo s "game-family-" || hasPrefixGo s "pkicon-"

lemma segStep_id_of_modifier (st : SelState) (s : String)
    (h : isModifierSeg s = true) : (segStep st s).id = st.id := by
  unfold segStep
  split_ifs with h1 h2 h3 h4
  · rfl
  · rfl
  · rfl
  · rfl
  · exfalso
    unfold isModifierSeg at h
    simp [h1, h2, h3, h4] at h

lemma segStep_id_of_base (st : SelState) (s : String)
    (h : isModifierSeg s = false) : (segStep st s).id = s := by
  unfold isModifierSeg at h
  simp only [Bool.or_eq_false_iff, beq_eq_false_iff_ne] at h
  unfold segStep
  simp [h.1.1.1, h.1.1.2, h.1.2, h.2]

lemma foldl_segStep_id (st : SelState) :
    ∀ segs : List String,
      ((segs.foldl segStep st).id)
        = (segs.filter (fun s => !isModifierSeg s)).getLastD st.id := by
  intro segs
  induction segs generalizing st with
  | nil => simp
  | cons s segs ih =>
    rw [List.foldl_cons, ih]
    by_cases hs : isModifierSeg s
    · rw [segStep_id_of_modifier st s hs]
      rw [List.filter_cons, if_neg (by simp [hs])]
    · rw [segStep_id_of_base st s (by simpa using hs)]
      have hs' : (!isModifierSeg s) = true := by simpa using hs
      rw [List.filter_cons, if_pos hs', List.getLastD_cons]

/-- C4: the filename policy is a deterministic total function of the
resolved identity with a fixed suffix order. For a stylesheet identity
(other than the empty and `ball-love` special tokens) the name is the base
token, then `-shiny` if shiny, then `-gameFamily` if present, then
`-form` if present, then `.png`; for a grid identity it is the
zero-padded 3-digit id, then `-suffix` if the sheet-level suffix is
present, then `-form` if present, then `.png`. The claim's two examples:
a shiny legends_arceus cap 025 stylesheet identity gives
`025-shiny-legends_arceus-cap.png`, and grid mode with
suffix `legends_arceus` and form `cap` gives `025-legends_arceus-cap.png`
(inside the fixed `./images/` output directory). -/
theorem claim_C4 :
    (∀ st : SelState, st.id = "" ∨ st.id = "ball-love" ∨
        nameFromState st
          = st.id ++ (if st.shiny then "-shiny" else "")
              ++ (if st.gameFamily ≠ "" then "-" ++ st.gameFamily else "")
              ++ (if st.form ≠ "" then "-" ++ st.form else "") ++ ".png") ∧
    (∀ (suffix : Option String) (p : Pokemon),
        gridOutName suffix p
          = "./images/" ++ pad3 p.id
              ++ (suffix.elim "" (fun s => "-" ++ s))
              ++ (p.form.elim "" (fun f => "-" ++ f)) ++ ".png") ∧
    scssSelectorToFilename "025.form-cap.game-family-legends_arceus.color-shiny"
      = "025-shiny-legends_arceus-cap.png" ∧
    gridOutName (some "legends_arceus") ⟨25, some "cap", false, 0⟩
      = "./images/025-legends_arceus-cap.png" := by
  refine ⟨?_, ?_, by decide, by decide⟩
  · intro st
    by_cases h0 : st.id = ""
    · exact Or.inl h0
    by_cases h1 : st.id = "ball-love"
    · exact Or.inr (Or.inl h1)
    refine Or.inr (Or.inr ?_)
    unfold nameFromState
    rw [if_neg h0, if_neg h1]
    by_cases h2 : st.shiny <;> by_cases h3 : st.gameFamily = "" <;>
      by_cases h4 : st.form = "" <;>
        simp [h2, h3, h4, String.append_assoc, String.append_empty] <;>
        rw [← String.append_assoc "-shiny" "-",
          (by decide : ("-shiny" ++ "-" : String) = "-shiny-")]
  · intro suffix p
    cases suffix <;> cases hf : p.form <;>
      simp [gridOutName, hf, String.append_assoc, String.append_empty]

/-- C5: any stylesheet selector whose resolved base token is `ball-love`
yields the fixed output filename `love-ball.png`, whatever
shiny/form/game-family modifiers the selector carries. -/
theorem claim_C5 (parts : String)
    (h : (resolveSelector parts).id = "ball-love") :
    scssSelectorToFilename parts = "love-ball.png" := by
  unfold scssSelectorToFilename nameFromState
  rw [h, if_neg (by decide), if_pos rfl]

/-- Witness for C5: a concrete selector carrying all three modifiers whose
base token is `ball-love`. -/
theorem claim_C5_witness :
    (resolveSelector
        "ball-love.color-shiny.form-cap.game-family-legends_arceus").id
      = "ball-love" ∧
    scssSelectorToFilename
        "ball-love.color-shiny.form-cap.game-family-legends_arceus"
      = "love-ball.png" :=
  ⟨by decide, claim_C5 _ (by decide)⟩

/-- C9: in `scssSelectorToFilename` every dot-segment that is not exactly
`color-shiny` and has none of the `form-`, `game-family-`, `pkicon-`
keyword prefixes is treated as the base token, the last such segment
winning; the resolved base token is the last unrecognized segment of the
selector. In particular `color-regular` is not recognized as a modifier:
it replaces the base token, so `025.color-regular` names the file
`color-regular.png` rather than a variant of `025.png`. -/
theorem claim_C9 :
    (∀ (st : SelState) (segs : List String),
        ((segs.foldl segStep st).id)
          = (segs.filter (fun s => !isModifierSeg s)).getLastD st.id) ∧
    (∀ parts : String,
        (resolveSelector parts).id
          = ((splitGo parts '.').filter
              (fun s => !isModifierSeg s)).getLastD "") ∧
    isModifierSeg "color-regular" = false ∧
    scssSelectorToFilename "025.color-regular" = "color-regular.png" ∧
    scssSelectorToFilename "025" = "025.png" :=
  ⟨fun st segs => foldl_segStep_id st segs,
   fun parts => foldl_segStep_id initSelState (splitGo parts '.'),
   by decide, by decide, by decide⟩

/-- One SCSS rule as matched by `lineRE` of `chopFromSCSS` (main.go line
85): the selector's middle part and the numeric width, height and
background-position captures. -/
structure ScssRule where
  selector : String
  w : Int
  h : Int
  bgX : Int
  bgY : Int
deriving Repr, DecidableEq

/-- One sprite emitted by the SCSS-mode loop: destination name, source
rectangle top-left corner and size. -/
structure ScssOutput where
  name : String
  srcX : Int
  srcY : Int
  w : Int
  h : Int
deriving Repr, DecidableEq

/-- One bounds-skip diagnostic record, carrying the data interpolated
into the stderr line `chop: skip NAME (bounds X,Y WxH outside image)` of
main.go line 108. -/
structure Diag where
  name : String
  srcX : Int
  srcY : Int
  w : Int
  h : Int
deriving Repr, DecidableEq

/-- Embeds the bounds test of main.go line 107:
`srcX < 0 || srcY < 0 || srcX+w > img.Bounds().Dx() || srcY+h > img.Bounds().Dy()`. -/
def outOfBounds (imgW imgH srcX srcY w h : Int) : Bool :=
  decide (srcX < 0) || decide (srcY < 0)
    || decide (srcX + w > imgW) || decide (srcY + h > imgH)

/-- Embeds the per-line loop of `chopFromSCSS` (main.go lines 88-126) over
the already-matched rules: a rule whose selector resolves to the empty
name is passed over silently; a rule whose rectangle (at `-bgX`, `-bgY`)
fails the bounds test produces one diagnostic record and no output; any
other rule produces one output. The emitted outputs and the diagnostics
are each returned in processing order. -/
def chopFromSCSS (imgW imgH : Int) : List ScssRule → List ScssOutput × List Diag
  | [] => ([], [])
  | r :: rs =>
    let outName := scssSelectorToFilename r.selector
    let rest := chopFromSCSS imgW imgH rs
    if outName = "" then rest
    else
      let srcX := -r.bgX
      let srcY := -r.bgY
      if outOfBounds imgW imgH srcX srcY r.w r.h then
        (rest.1, ⟨outName, srcX, srcY, r.w, r.h⟩ :: rest.2)
      else
        (⟨outName, srcX, srcY, r.w, r.h⟩ :: rest.1, rest.2)

/-- C6: in stylesheet (SCSS) mode, a matched rule whose rectangle
(negated offsets plus width/height) lies partly or fully outside the
source image produces no output, produces exactly one diagnostic record,
does not abort the run, and leaves the processing of all subsequent rules
unchanged. -/
theorem claim_C6 (imgW imgH : Int) (r : ScssRule) (rs : List ScssRule)
    (hname : scssSelectorToFilename r.selector ≠ "")
    (hb : outOfBounds imgW imgH (-r.bgX) (-r.bgY) r.w r.h = true) :
    chopFromSCSS imgW imgH (r :: rs) =
      ((chopFromSCSS imgW imgH rs).1,
        ⟨scssSelectorToFilename r.selector, -r.bgX, -r.bgY, r.w, r.h⟩
          :: (chopFromSCSS imgW imgH rs).2) := by
  simp only [chopFromSCSS]
  rw [if_neg hname, if_pos hb]

/-- Witness for C6: the spec's own example, a 20x20 rule at offsets
(-5,-5) (so source origin (-5,-5)) against a 24x24 image, followed by an
in-bounds rule that is still emitted. -/
theorem claim_C6_witness :
    scssSelectorToFilename "001" ≠ "" ∧
    outOfBounds 24 24 (-(-5 : Int)) (-(-5 : Int)) 20 20 = true ∧
    chopFromSCSS 24 24 [⟨"001", 20, 20, -5, -5⟩, ⟨"002", 10, 10, 0, 0⟩] =
      ((chopFromSCSS 24 24 [⟨"002", 10, 10, 0, 0⟩]).1,
        ⟨scssSelectorToFilename "001", -(-5 : Int), -(-5 : Int), 20, 20⟩
          :: (chopFromSCSS 24 24 [⟨"002", 10, 10, 0, 0⟩]).2) :=
  ⟨by decide, by decide,
    claim_C6 24 24 ⟨"001", 20, 20, -5, -5⟩ [⟨"002", 10, 10, 0, 0⟩]
      (by decide) (by decide)⟩

/-- Embeds the Go struct `SpritePosition` of the position-table
generator. -/
structure SpritePosition where
  width : Int
  height : Int
  backgroundPosition : String
deriving Repr, DecidableEq

/-- One SCSS rule as matched by the position-table generator's `lineRE`:
captures 1-8 (id digits, optional form, game-family and color modifiers,
width, height, and the two background-position numbers kept as text). -/
structure PosRule where
  pokemonID : String
  form : String
  gameFamily : String
  color : String
  width : Int
  height : Int
  xPos : String
  yPos : String
deriving Repr, DecidableEq

/-- Embeds Go `strconv.Atoi` on the decimal-digit capture `m[1]` of
`lineRE` (the pattern `\d+` guarantees a nonempty digit string, on which
`Atoi` returns the decimal value). -/
def atoiDigits (s : String) : Nat :=
  s.data.foldl (fun n c => n * 10 + (c.toNat - 48)) 0

/-- Embeds the key construction of `extractSpritePositions` (lines
334-343 of the generator): `pokemon-` plus the id re-rendered in decimal
(`strconv.Itoa (atoi id)`, which strips leading zeros), then `-form`,
`-gameFamily` and `-shiny` when those captures are present. -/
def posKey (r : PosRule) : String :=
  let key := "pokemon-" ++ toString (atoiDigits r.pokemonID)
  let key := if r.form ≠ "" then key ++ "-" ++ r.form else key
  let key := if r.gameFamily ≠ "" then key ++ "-" ++ r.gameFamily else key
  if r.color = "shiny" then key ++ "-shiny" else key

/-- Embeds the value stored for a rule (lines 345-349): width, height and
the re-assembled `Xpx Ypx` background-position text. -/
def spritePos (r : PosRule) : SpritePosition :=
  ⟨r.width, r.height, r.xPos ++ "px " ++ r.yPos ++ "px"⟩

/-- Embeds the loop of `extractSpritePositions` (lines 324-351): the Go
map (modelled as a function to `Option`) is updated at the rule's key,
overwriting any earlier entry, and the key is appended to the `order`
slice on every matching line. -/
def extractLoop :
    (String → Option SpritePosition) → List String → List PosRule →
      (String → Option SpritePosition) × List String
  | m, ord, [] => (m, ord)
  | m, ord, r :: rs =>
    extractLoop
      (fun k => if k = posKey r then some (spritePos r) else m k)
      (ord ++ [posKey r]) rs

/-- Embeds `extractSpritePositions` (lines 320-354): run the loop from
the empty map and empty order. -/
def extractSpritePositions (rules : List PosRule) :
    (String → Option SpritePosition) × List String :=
  extractLoop (fun _ => none) [] rules

lemma extractLoop_order :
    ∀ (rs : List PosRule) (m : String → Option SpritePosition)
      (ord : List String),
      (extractLoop m ord rs).2 = ord ++ rs.map posKey := by
  intro rs
  induction rs with
  | nil => intro m ord; simp [extractLoop]
  | cons r rs ih =>
    intro m ord
    rw [extractLoop, ih]
    simp

lemma extractLoop_lookup :
    ∀ (rs : List PosRule) (m : String → Option SpritePosition)
      (ord : List String) (k : String),
      (extractLoop m ord rs).1 k
        = ((rs.filter (fun r => posKey r == k)).getLast?.map spritePos).or
            (m k) := by
  intro rs
  induction rs with
  | nil => intro m ord k; simp [extractLoop]
  | cons r rs ih =>
    intro m ord k
    rw [extractLoop, ih]
    by_cases hk : posKey r = k
    · cases hl : (rs.filter (fun r => posKey r == k)).getLast? with
      | none =>
        simp [List.filter_cons, hk, hl, List.getLast?_cons,
          List.getLastD_eq_getLast?]
      | some r' =>
        simp [List.filter_cons, hk, hl, List.getLast?_cons,
          List.getLastD_eq_getLast?]
    · simp [List.filter_cons, hk, Ne.symm hk]

/-- Counterexample to C7 as stated: feeding the position-table parser two
matching lines that resolve to the same key `pokemon-1` leaves the key in
the discovery-order sequence twice (once per occurrence), not exactly
once as the claim demands; the mapping does retain the last-seen rule's
data. -/
theorem claim_C7_cex :
    (extractSpritePositions
        [⟨"1", "", "", "", 10, 10, "0", "0"⟩,
         ⟨"1", "", "", "", 20, 20, "-8", "0"⟩]).2
      = ["pokemon-1", "pokemon-1"] ∧
    ¬ ((extractSpritePositions
        [⟨"1", "", "", "", 10, 10, "0", "0"⟩,
         ⟨"1", "", "", "", 20, 20, "-8", "0"⟩]).2.count "pokemon-1" = 1) ∧
    (extractSpritePositions
        [⟨"1", "", "", "", 10, 10, "0", "0"⟩,
         ⟨"1", "", "", "", 20, 20, "-8", "0"⟩]).1 "pokemon-1"
      = some ⟨20, 20, "-8px 0px"⟩ := by
  refine ⟨by decide, by decide, by decide⟩

/-- C7 (amended): when the same resolved identity key is produced by
several matching stylesheet lines, the positional mapping retains the
last-seen rule's data (later rules overwrite earlier ones), while the
discovery-order sequence records the key of every matching line in
processing order, so a duplicated key appears once per occurrence rather
than only at its first occurrence. -/
theorem claim_C7 (rules : List PosRule) (k : String) :
    (extractSpritePositions rules).2 = rules.map posKey ∧
    (extractSpritePositions rules).1 k
      = ((rules.filter (fun r => posKey r == k)).getLast?).map spritePos := by
  constructor
  · rw [extractSpritePositions, extractLoop_order]
    simp
  · rw [extractSpritePositions, extractLoop_lookup]
    cases (rules.filter (fun r => posKey r == k)).getLast? <;> simp

/-- C10: the position-table generator builds its key as `pokemon-` plus
the id's decimal value with leading zeros stripped, then `-form`,
`-gameFamily` and `-shiny` in that order, so its keys differ from the
zero-padded names the chop extractor produces for the same rule
(`001` yields key `pokemon-1` but chop filename `001.png`). -/
theorem claim_C10 :
    (∀ s : String, atoiDigits ("0" ++ s) = atoiDigits s) ∧
    posKey ⟨"001", "", "", "", 10, 10, "0", "0"⟩ = "pokemon-1" ∧
    posKey ⟨"025", "cap", "legends_arceus", "shiny", 21, 20, "-67", "-56"⟩
      = "pokemon-25-cap-legends_arceus-shiny" ∧
    scssSelectorToFilename "001" = "001.png" ∧
    "pokemon-1" ≠ "001.png" := by
  refine ⟨?_, by decide, by decide, by decide, by decide⟩
  intro s
  unfold atoiDigits
  rw [String.data_append, List.foldl_append]
  rfl

/-- The observable outcome of the argument check at the top of the chop
command's `main` (main.go lines 45-51): whether the process exits early
(and with which status), and the lines written to standard output and
standard error before doing so. -/
structure MainResult where
  exitCode : Option Int
  stdoutLines : List String
  stderrLines : List String
deriving Repr, DecidableEq

/-- The three usage lines of main.go lines 47-49, printed with
`fmt.Println`, which writes to standard output. -/
def usageLines : List String :=
  ["Usage: task chop -- <filename.json|filename.scss>",
   "  JSON: task chop -- ./data/spritesheet.json",
   "  SCSS: task chop -- toExtractFrom/pokesprite.scss"]

/-- Embeds main.go lines 46-51: with `os.Args` (program name included)
not exactly 2 long, print the usage lines via `fmt.Println` (standard
output) and `os.Exit(1)`; otherwise continue with no early exit and no
output from this check. -/
def chopMainArgCheck (args : List String) : MainResult :=
  if args.length ≠ 2 then ⟨some 1, usageLines, []⟩ else ⟨none, [], []⟩

/-- Counterexample to C8 as stated: invoked with no path argument
(`os.Args = ["chop"]`), the command does exit with the non-zero status 1,
but the usage message goes to standard output — standard error stays
empty, contradicting the claim that the usage message is written to the
diagnostic stream. -/
theorem claim_C8_cex :
    (chopMainArgCheck ["chop"]).exitCode = some 1 ∧
    (chopMainArgCheck ["chop"]).stdoutLines = usageLines ∧
    ¬ ((chopMainArgCheck ["chop"]).stderrLines ≠ []) := by
  refine ⟨by decide, by decide, by decide⟩

/-- C8 (amended): when the chop command is invoked with an argument count
other than exactly one path argument, it exits with the non-zero status 1
and writes the usage message to standard output (not to standard
error, which receives nothing). -/
theorem claim_C8 (args : List String) (h : args.length ≠ 2) :
    chopMainArgCheck args = ⟨some 1, usageLines, []⟩ := by
  rw [chopMainArgCheck, if_pos h]

/-- Witness for the amended C8: a concrete invocation with zero path
arguments. -/
theorem claim_C8_witness :
    (["chop"] : List String).length ≠ 2 ∧
    chopMainArgCheck ["chop"] = ⟨some 1, usageLines, []⟩ :=
  ⟨by decide, claim_C8 ["chop"] (by decide)⟩

end Pokesprite
